import Mathlib

/-!
Shallow embedding of `Isotropic_emission.cpp` (Monte Carlo geometric
efficiency of a detector for an isotropic source).

Modelling conventions:
* C++ `double` values are modelled as real numbers (`ℝ`); the two places
  where IEEE special values (`NaN`, `+inf`) are observable — the final
  division `50.0*N_hit/n` at line 149 and the relative-error expression
  `100 / sqrt(...)` at lines 220/226/227 — are additionally modelled with a
  small IEEE-style value type `FloatV` restricted to the nonnegative
  operands that actually occur there.
* `std::default_random_engine` together with `uniform_real_distribution`
  and `normal_distribution` are C++ standard-library components (not part
  of this repository's sources).  They are modelled abstractly: a stream
  map `U : ℤ → ℕ → ℝ` gives, for each seed, the sequence of canonical
  uniform draws in `[0,1)` produced by an engine constructed from that
  seed (`uniform_real_distribution(a,b)` then yields `a + (b-a)·u`), and a
  second map `G : ℤ → ℕ → ℝ` gives the standard-normal draws
  (`normal_distribution(0,σ)` yields `σ·g`).  Each generated point
  consumes its draws in the order the C++ loop performs them.
* `exit(0)` after a diagnostic on `std::cerr` is modelled as an `Except`
  error (`Err.invalidConfiguration` for bad type strings,
  `Err.sizeMismatch` for the vector-size check in `add_vec`).
-/

set_option autoImplicit false

namespace GeomEff

/-- Error outcomes of the C++ program: every `std::cerr << "ERROR: ..."`
followed by `exit(0)` is modelled as one of these. -/
inductive Err where
  | invalidConfiguration
  | sizeMismatch
deriving DecidableEq

/-- The `position` class (lines 13–92): a pair of coordinate vectors. -/
structure position where
  x : List ℝ
  y : List ℝ

/-- Vector addition `position::add_vec` (lines 22–35): compares the sizes
of `x` and `x_diff` and exits with an error on mismatch, otherwise adds
the offsets elementwise in place.  (The C++ loop runs `x.size()` times
over both coordinate arrays; when all four lengths agree — the invariant
under which the program ever calls it — this is exactly the elementwise
`zipWith` below.) -/
def add_vec (p : position) (x_diff y_diff : List ℝ) : Except Err position :=
  if p.x.length ≠ x_diff.length then Except.error Err.sizeMismatch
  else Except.ok
    { x := List.zipWith (fun a b => a + b) p.x x_diff
      y := List.zipWith (fun a b => a + b) p.y y_diff }

/-- Squared radii `position::calculate_rsq` (lines 37–45):
`r_sq[i] = x[i]*x[i] + y[i]*y[i]`. -/
def calculate_rsq (p : position) : List ℝ :=
  List.zipWith (fun a b => a * a + b * b) p.x p.y

/-- Isotropic emission generator `position::generate_isotropic`
(lines 48–60) on a batch of `n` points: per point, draw
`phi ~ Uniform(0, 2π)` then `u ~ Uniform(0,1)`, set
`theta = acos(1 - 2u)` and output
`(z·tan θ·cos φ, z·tan θ·sin φ)`.  `u k` is the engine's `k`-th canonical
draw, so point `i` uses draws `2i` (for `phi`) and `2i+1` (for `theta`). -/
noncomputable def generate_isotropic (n : ℕ) (z : ℝ) (u : ℕ → ℝ) : position where
  x := (List.range n).map fun i =>
    z * Real.tan (Real.arccos (1 - 2 * u (2 * i + 1))) * Real.cos (2 * Real.pi * u (2 * i))
  y := (List.range n).map fun i =>
    z * Real.tan (Real.arccos (1 - 2 * u (2 * i + 1))) * Real.sin (2 * Real.pi * u (2 * i))

/-- Uniform-disc source generator `position::generate_circular_distr`
(lines 63–75): per point, `phi ~ Uniform(0,2π)`, radius `r_s·sqrt(u)`
with `u ~ Uniform(0,1)`, output `(r cos φ, r sin φ)`. -/
noncomputable def generate_circular_distr (n : ℕ) (r_s : ℝ) (u : ℕ → ℝ) : position where
  x := (List.range n).map fun i =>
    r_s * Real.sqrt (u (2 * i + 1)) * Real.cos (2 * Real.pi * u (2 * i))
  y := (List.range n).map fun i =>
    r_s * Real.sqrt (u (2 * i + 1)) * Real.sin (2 * Real.pi * u (2 * i))

/-- Gaussian source generator `position::generate_gaussian_distr`
(lines 78–90): per point, `phi ~ Uniform(0,2π)` and a signed radius
`r ~ Normal(0,σ)`, i.e. `σ` times a standard-normal draw `g i`. -/
noncomputable def generate_gaussian_distr (n : ℕ) (sigma : ℝ) (u g : ℕ → ℝ) : position where
  x := (List.range n).map fun i => sigma * g i * Real.cos (2 * Real.pi * u i)
  y := (List.range n).map fun i => sigma * g i * Real.sin (2 * Real.pi * u i)

/-- The `linspace` function (lines 96–104):
`out[i] = min + (max-min)/(nr_points-1) · i`.  (For `nr_points = 1` the
C++ divides by zero in IEEE doubles; in `ℝ` the Lean convention `x/0 = 0`
applies.  No claim settled here depends on the values of that degenerate
case, only on the absence of any error/abort, which both semantics
share.) -/
noncomputable def linspace (min max : ℝ) (nr_points : ℕ) : List ℝ :=
  (List.range nr_points).map fun i : ℕ =>
    min + (max - min) / ((nr_points : ℝ) - 1) * (i : ℝ)

/-- Loop body of `point_source` (line 114): the point-source
approximation at one distance. -/
noncomputable def ps (t : ℝ) : ℝ :=
  50 - 50 * t / Real.sqrt (1 + t ^ 2)

/-- The `point_source` function (lines 108–118). -/
noncomputable def point_source (z : List ℝ) : List ℝ :=
  z.map fun t => 50 - 50 * t / Real.sqrt (1 + t ^ 2)

/-- Hit counter (lines 144–148): the number of entries of `r_final` with
`r ≤ 1`. -/
noncomputable def hitCount (rs : List ℝ) : ℕ :=
  List.countP (fun r => decide (r ≤ (1 : ℝ))) rs

/-- The geometric-efficiency estimator `geom_eff_point` (lines 122–150):
select the source generator by `source_type` (exiting on an unrecognized
string), generate the source batch from `seed`, increment the seed and
generate the emission batch from `seed + 1`, add them with `add_vec`,
compute squared radii, count hits and return `50·N_hit/n`.  (The final
division is real division; the IEEE `n = 0` corner of line 149 is
modelled separately by `efficiency_percentF`.) -/
noncomputable def geom_eff_point (z source : ℝ) (n : ℕ) (seed : ℤ)
    (source_type : String) (U G : ℤ → ℕ → ℝ) : Except Err ℝ :=
  let sourceSel : Except Err position :=
    if source_type = "uniform" then
      Except.ok (generate_circular_distr n source (U seed))
    else if source_type = "gaussian" then
      Except.ok (generate_gaussian_distr n source (U seed) (G seed))
    else Except.error Err.invalidConfiguration
  match sourceSel with
  | Except.error e => Except.error e
  | Except.ok generate_source =>
    let generate_emission := generate_isotropic n z (U (seed + 1))
    match add_vec generate_source generate_emission.x generate_emission.y with
    | Except.error e => Except.error e
    | Except.ok moved =>
      let r_final := calculate_rsq moved
      Except.ok (50 * (hitCount r_final : ℝ) / (n : ℝ))

/-- Relative-error expression of `main` (lines 220, 226, 227):
`100 / sqrt(2 · n_perpoint · efficiency / 100)`. -/
noncomputable def rel_err (n_perpoint : ℕ) (eff : ℝ) : ℝ :=
  100 / Real.sqrt (2 * (n_perpoint : ℝ) * eff / 100)

/-- The seed picked in `main` (line 169). -/
def initial_seed : ℤ := 15763027

/-- Seed value that `main` passes to `geom_eff_point` at loop iteration
`i` (lines 219, 223, 224): the variable `seed` is initialized once at
line 169 and never reassigned in `main` — `geom_eff_point` receives it by
value, so the `seed++` at line 138 only affects the callee's local copy —
hence every iteration passes the same value. -/
def mainSeedAt : ℕ → ℤ := fun _ => initial_seed

/-- Loop body of `main`'s sweep (lines 217–236) at one distance `zi`:
for a circular detector, one estimator call and its relative error; for
an annular detector, two estimator calls — at `(zi, source)` and at
`(zi·det_fraction, source·det_fraction)`, both with the same seed — the
difference of efficiencies and the quadrature of the two relative
errors; any other detector string exits. -/
noncomputable def sweepStep (detector_type source_type : String)
    (det_fraction source : ℝ) (n_perpoint : ℕ) (U G : ℤ → ℕ → ℝ)
    (zi : ℝ) : Except Err (ℝ × ℝ) :=
  if detector_type = "circular" then
    match geom_eff_point zi source n_perpoint initial_seed source_type U G with
    | Except.error e => Except.error e
    | Except.ok eff => Except.ok (eff, rel_err n_perpoint eff)
  else if detector_type = "annular" then
    match geom_eff_point zi source n_perpoint initial_seed source_type U G with
    | Except.error e => Except.error e
    | Except.ok eff_outer =>
      match geom_eff_point (zi * det_fraction) (source * det_fraction)
          n_perpoint initial_seed source_type U G with
      | Except.error e => Except.error e
      | Except.ok eff_inner =>
        let ro := rel_err n_perpoint eff_outer
        let ri := rel_err n_perpoint eff_inner
        Except.ok (eff_outer - eff_inner, Real.sqrt (ro * ro + ri * ri))
  else Except.error Err.invalidConfiguration

/-- Sequential sweep over the distance list (the `for` loop of lines
217–236); an `exit` inside an iteration aborts the remainder. -/
noncomputable def sweepLoop (step : ℝ → Except Err (ℝ × ℝ)) :
    List ℝ → Except Err (List (ℝ × ℝ))
  | [] => Except.ok []
  | zi :: rest =>
    match step zi with
    | Except.error e => Except.error e
    | Except.ok p =>
      match sweepLoop step rest with
      | Except.error e => Except.error e
      | Except.ok ps_rest => Except.ok (p :: ps_rest)

/-- Computational core of `main` (lines 168–240), after the prompts of
lines 194–209 have produced the scalar inputs: validate the source and
detector type strings (lines 183–190), set `n_perpoint = 10^power`
(line 211), build the distance grid with `linspace` (line 212) and run
the sweep loop.  `main` performs no validation of `n_points`, `source`,
`power` or `det_fraction`. -/
noncomputable def runMain (source_type detector_type : String)
    (z_min z_max : ℝ) (n_points : ℕ) (source : ℝ) (power : ℕ)
    (det_fraction : ℝ) (U G : ℤ → ℕ → ℝ) : Except Err (List (ℝ × ℝ)) :=
  if source_type ≠ "uniform" ∧ source_type ≠ "gaussian" then
    Except.error Err.invalidConfiguration
  else if detector_type ≠ "circular" ∧ detector_type ≠ "annular" then
    Except.error Err.invalidConfiguration
  else
    sweepLoop
      (sweepStep detector_type source_type det_fraction source (10 ^ power) U G)
      (linspace z_min z_max n_points)

/-- Source batch of one evaluation, as §4.2 of the design describes it:
the profile selector picks the uniform-disc or Gaussian generator, seeded
with the call's seed. -/
noncomputable def sourceBatch (source : ℝ) (n : ℕ) (seed : ℤ)
    (source_type : String) (U G : ℤ → ℕ → ℝ) : position :=
  if source_type = "uniform" then generate_circular_distr n source (U seed)
  else generate_gaussian_distr n source (U seed) (G seed)

/-- One estimator evaluation as the design text describes it (§4.4):
generate the `n` source points from `seed`, generate the `n` isotropic
emission offsets from `seed + 1`, add the two batches elementwise, and
return `50 · (number of summed points with x² + y² ≤ 1) / n`.  Stated
independently of `geom_eff_point` for the refinement comparison. -/
noncomputable def evalEfficiency (z source : ℝ) (n : ℕ) (seed : ℤ)
    (source_type : String) (U G : ℤ → ℕ → ℝ) : ℝ :=
  let src := sourceBatch source n seed source_type U G
  let em := generate_isotropic n z (U (seed + 1))
  let sx := List.zipWith (fun a b => a + b) src.x em.x
  let sy := List.zipWith (fun a b => a + b) src.y em.y
  50 * ((List.zipWith (fun a b => a * a + b * b) sx sy).countP
    (fun r => decide (r ≤ (1 : ℝ))) : ℝ) / (n : ℝ)

/-- Minimal model of the IEEE-double values observable in this program:
finite values (all of them nonnegative where this type is used), positive
infinity and NaN.  Negative infinities never arise in the modelled
expressions, so they are not represented. -/
inductive FloatV where
  | real : ℝ → FloatV
  | pinf : FloatV
  | nan : FloatV

/-- IEEE multiplication restricted to the nonnegative operands used
here: NaN propagates, `∞ · 0 = NaN`, `∞ · b = ∞` for `b ≠ 0` (nonnegative
`b`), finite values multiply. -/
noncomputable def fmul : FloatV → FloatV → FloatV
  | FloatV.nan, _ => FloatV.nan
  | _, FloatV.nan => FloatV.nan
  | FloatV.pinf, FloatV.pinf => FloatV.pinf
  | FloatV.pinf, FloatV.real b => if b = 0 then FloatV.nan else FloatV.pinf
  | FloatV.real a, FloatV.pinf => if a = 0 then FloatV.nan else FloatV.pinf
  | FloatV.real a, FloatV.real b => FloatV.real (a * b)

/-- IEEE division restricted to the nonnegative operands used here: NaN
propagates, `0/0 = NaN`, `a/+0 = +∞` for `a ≠ 0` (nonnegative `a`),
`a/∞ = 0`, `∞/b = ∞` for finite nonnegative `b`, finite values divide. -/
noncomputable def fdiv : FloatV → FloatV → FloatV
  | FloatV.nan, _ => FloatV.nan
  | _, FloatV.nan => FloatV.nan
  | FloatV.pinf, FloatV.pinf => FloatV.nan
  | FloatV.pinf, FloatV.real _ => FloatV.pinf
  | FloatV.real _, FloatV.pinf => FloatV.real 0
  | FloatV.real a, FloatV.real b =>
    if b = 0 then (if a = 0 then FloatV.nan else FloatV.pinf)
    else FloatV.real (a / b)

/-- IEEE square root: NaN propagates, negative arguments give NaN,
`sqrt ∞ = ∞`. -/
noncomputable def fsqrt : FloatV → FloatV
  | FloatV.nan => FloatV.nan
  | FloatV.pinf => FloatV.pinf
  | FloatV.real a => if a < 0 then FloatV.nan else FloatV.real (Real.sqrt a)

/-- IEEE-double model of line 149, `return 50.0*N_hit/n;`: the product
`50.0 · N_hit` is exact, then divided by `n` converted to double.  For
`n = 0` (reachable via a negative `power` input, since
`int(pow(10, power)) = 0` then) this is `0.0/0.0 = NaN`. -/
noncomputable def efficiency_percentF (N_hit n : ℕ) : FloatV :=
  fdiv (FloatV.real (50 * (N_hit : ℝ))) (FloatV.real (n : ℝ))

/-- IEEE-double model of the relative-error expression of lines 220,
226, 227: `100 / sqrt(2 · n_perpoint · eff / 100)`. -/
noncomputable def relative_errorF (n_perpoint : ℕ) (eff : FloatV) : FloatV :=
  fdiv (FloatV.real 100)
    (fsqrt (fdiv (fmul (FloatV.real (2 * (n_perpoint : ℝ))) eff) (FloatV.real 100)))

/-- Modelled from the spec: the Random Sampler component (§4.1, the C++
`std::default_random_engine`, a standard-library component not in this
repository's sources).  libstdc++ implements it as the `minstd_rand0`
linear congruential generator `x ↦ 16807·x mod (2³¹ − 1)`; one step of
that recurrence. -/
def engine_next (s : ℕ) : ℕ := 16807 * s % 2147483647

/-- Modelled from the spec: engine seeding — the seed is reduced modulo
`2³¹ − 1`, with `0` replaced by `1`. -/
def engine_seed (seed : ℤ) : ℕ :=
  let r := (seed % 2147483647).toNat
  if r = 0 then 1 else r

/-- Modelled from the spec: the draw sequence of a sampler constructed
from `seed` — the successive raw outputs of the engine. -/
def engine_stream (seed : ℤ) : ℕ → ℕ
  | 0 => engine_next (engine_seed seed)
  | k + 1 => engine_next (engine_stream seed k)

/-- Draw stream that is identically zero, used to instantiate the
abstract sampler at concrete inputs. -/
def zeroStream : ℤ → ℕ → ℝ := fun _ _ => 0

/-- Draw stream that is identically three, used to instantiate the
abstract normal sampler at concrete inputs. -/
def threeStream : ℤ → ℕ → ℝ := fun _ _ => 3

/-- Draw stream that agrees with `zeroStream` at seeds `0` and `1` but
differs elsewhere, used to witness that an evaluation depends only on
the streams at its own seed and its successor. -/
noncomputable def shiftStream : ℤ → ℕ → ℝ :=
  fun s _ => if s = 0 ∨ s = 1 then 0 else 5

theorem getD_map_range (f : ℕ → ℝ) (n i : ℕ) (h : i < n) :
    ((List.range n).map f).getD i 0 = f i := by
  rw [List.getD_eq_getElem?_getD]
  simp [List.getElem?_map, List.getElem?_range, h]

theorem generate_circular_distr_x_length (n : ℕ) (r_s : ℝ) (u : ℕ → ℝ) :
    (generate_circular_distr n r_s u).x.length = n := by
  simp [generate_circular_distr]

theorem generate_circular_distr_y_length (n : ℕ) (r_s : ℝ) (u : ℕ → ℝ) :
    (generate_circular_distr n r_s u).y.length = n := by
  simp [generate_circular_distr]

theorem generate_gaussian_distr_x_length (n : ℕ) (sigma : ℝ) (u g : ℕ → ℝ) :
    (generate_gaussian_distr n sigma u g).x.length = n := by
  simp [generate_gaussian_distr]

theorem generate_gaussian_distr_y_length (n : ℕ) (sigma : ℝ) (u g : ℕ → ℝ) :
    (generate_gaussian_distr n sigma u g).y.length = n := by
  simp [generate_gaussian_distr]

theorem generate_isotropic_x_length (n : ℕ) (z : ℝ) (u : ℕ → ℝ) :
    (generate_isotropic n z u).x.length = n := by
  simp [generate_isotropic]

theorem generate_isotropic_y_length (n : ℕ) (z : ℝ) (u : ℕ → ℝ) :
    (generate_isotropic n z u).y.length = n := by
  simp [generate_isotropic]

theorem geom_eff_point_uniform_eq (z source : ℝ) (n : ℕ) (seed : ℤ)
    (U G : ℤ → ℕ → ℝ) :
    geom_eff_point z source n seed "uniform" U G =
      Except.ok (evalEfficiency z source n seed "uniform" U G) := by
  simp [geom_eff_point, evalEfficiency, sourceBatch, add_vec, calculate_rsq, hitCount,
    generate_circular_distr_x_length, generate_isotropic_x_length]

theorem geom_eff_point_gaussian_eq (z source : ℝ) (n : ℕ) (seed : ℤ)
    (U G : ℤ → ℕ → ℝ) :
    geom_eff_point z source n seed "gaussian" U G =
      Except.ok (evalEfficiency z source n seed "gaussian" U G) := by
  simp [geom_eff_point, evalEfficiency, sourceBatch, add_vec, calculate_rsq, hitCount,
    generate_gaussian_distr_x_length, generate_isotropic_x_length]

theorem geom_eff_point_ok (z source : ℝ) (n : ℕ) (seed : ℤ) (st : String)
    (U G : ℤ → ℕ → ℝ) (h : st = "uniform" ∨ st = "gaussian") :
    geom_eff_point z source n seed st U G =
      Except.ok (evalEfficiency z source n seed st U G) := by
  rcases h with h | h <;> subst h
  · exact geom_eff_point_uniform_eq z source n seed U G
  · exact geom_eff_point_gaussian_eq z source n seed U G

theorem sweepLoop_ok (step : ℝ → Except Err (ℝ × ℝ)) (g : ℝ → ℝ × ℝ)
    (h : ∀ zi, step zi = Except.ok (g zi)) :
    ∀ l : List ℝ, sweepLoop step l = Except.ok (l.map g) := by
  intro l
  induction l with
  | nil => simp [sweepLoop]
  | cons a t ih => simp [sweepLoop, h a, ih]

theorem sweepStep_circular_eq (st : String) (h : st = "uniform" ∨ st = "gaussian")
    (frac source : ℝ) (np : ℕ) (U G : ℤ → ℕ → ℝ) (zi : ℝ) :
    sweepStep "circular" st frac source np U G zi =
      Except.ok (evalEfficiency zi source np initial_seed st U G,
        rel_err np (evalEfficiency zi source np initial_seed st U G)) := by
  rw [sweepStep, if_pos rfl, geom_eff_point_ok zi source np initial_seed st U G h]

theorem sweepStep_annular_eq (st : String) (h : st = "uniform" ∨ st = "gaussian")
    (frac source : ℝ) (np : ℕ) (U G : ℤ → ℕ → ℝ) (zi : ℝ) :
    sweepStep "annular" st frac source np U G zi =
      Except.ok (evalEfficiency zi source np initial_seed st U G -
          evalEfficiency (zi * frac) (source * frac) np initial_seed st U G,
        Real.sqrt
          (rel_err np (evalEfficiency zi source np initial_seed st U G) *
              rel_err np (evalEfficiency zi source np initial_seed st U G) +
            rel_err np (evalEfficiency (zi * frac) (source * frac) np initial_seed st U G) *
              rel_err np (evalEfficiency (zi * frac) (source * frac) np initial_seed st U G))) := by
  rw [sweepStep, if_neg (by simp), if_pos rfl,
    geom_eff_point_ok zi source np initial_seed st U G h,
    geom_eff_point_ok (zi * frac) (source * frac) np initial_seed st U G h]

theorem eval_zero_inputs (seed : ℤ) :
    geom_eff_point 0 0 1 seed "uniform" zeroStream zeroStream = Except.ok 50 := by
  rw [geom_eff_point_uniform_eq]
  norm_num [evalEfficiency, sourceBatch, generate_circular_distr, generate_isotropic,
    zeroStream, List.countP_cons]

theorem eval_gaussian_miss :
    geom_eff_point 0 1 1 0 "gaussian" zeroStream threeStream = Except.ok 0 := by
  rw [geom_eff_point_gaussian_eq]
  simp [evalEfficiency, sourceBatch, generate_gaussian_distr, generate_isotropic,
    zeroStream, threeStream, List.countP_cons]
  norm_num

theorem rel_err_one_fifty : rel_err 1 50 = 100 := by
  rw [rel_err]
  norm_num [Real.sqrt_one]

/-- C1: for every distance `z`, source size, valid source profile, sample
count `n ≥ 1` and seed `s`, one estimator evaluation generates the `n`
source points from seed `s`, generates the `n` isotropic emission offsets
from seed `s + 1`, adds the two batches elementwise, and returns
`efficiency_percent = 50 · (number of summed points with x² + y² ≤ 1) / n`
(the pipeline `evalEfficiency` states exactly that composition). -/
theorem C1_estimator_pipeline (z source : ℝ) (n : ℕ) (seed : ℤ) (st : String)
    (U G : ℤ → ℕ → ℝ) (_hn : 1 ≤ n) (h : st = "uniform" ∨ st = "gaussian") :
    geom_eff_point z source n seed st U G =
      Except.ok (evalEfficiency z source n seed st U G) :=
  geom_eff_point_ok z source n seed st U G h

theorem C1_estimator_pipeline_witness :
    geom_eff_point 0 0 1 0 "uniform" zeroStream zeroStream =
      Except.ok (evalEfficiency 0 0 1 0 "uniform" zeroStream zeroStream) :=
  C1_estimator_pipeline 0 0 1 0 "uniform" zeroStream zeroStream (le_refl 1) (Or.inl rfl)

/-- C2 counterexample: the claim that each successive estimator
evaluation of a sweep receives a seed advanced past the previous
evaluation's seed is false — `main`'s seed variable is never reassigned,
so iterations `0` and `1` pass the identical seed value `15763027` to the
estimator, and a sweep whose two iterations evaluate the same distance
returns two identical result pairs (same random stream, not distinct
ones). -/
theorem C2_same_seed_every_iteration :
    mainSeedAt 0 = mainSeedAt 1 ∧ mainSeedAt 1 = initial_seed ∧
    runMain "uniform" "circular" 0 0 2 0 0 1 zeroStream zeroStream =
      Except.ok [((50 : ℝ), (100 : ℝ)), (50, 100)] := by
  refine ⟨rfl, rfl, ?_⟩
  have hz : linspace 0 0 2 = [0, 0] := by
    norm_num [linspace, List.range_succ]
  have hstep : ∀ zi : ℝ, zi = 0 →
      sweepStep "circular" "uniform" 1 0 (10 ^ 0) zeroStream zeroStream zi =
        Except.ok (50, 100) := by
    intro zi hzi
    subst hzi
    rw [sweepStep, if_pos rfl]
    rw [show (10 ^ 0 : ℕ) = 1 from rfl, eval_zero_inputs initial_seed]
    simp [rel_err_one_fifty]
  rw [runMain, if_neg (by simp), if_neg (by simp), hz, sweepLoop, hstep 0 rfl,
    sweepLoop, hstep 0 rfl, sweepLoop]

/-- C2 (amended): the seed is advanced once inside each estimator call —
an evaluation at seed `s` depends on the random streams only through the
streams at `s` (source points, and normal draws for a Gaussian source)
and at `s + 1` (emission offsets) — and results are reproducible from
those streams; but `main` passes the same initial seed `15763027` to
every estimator evaluation of the sweep, so successive evaluations at
different distances reuse the same random streams rather than receiving
advanced, decorrelated ones. -/
theorem C2_seed_use_within_call :
    (∀ i : ℕ, mainSeedAt i = initial_seed) ∧
    (∀ (z source : ℝ) (n : ℕ) (seed : ℤ) (st : String) (U U2 G G2 : ℤ → ℕ → ℝ),
      U seed = U2 seed → U (seed + 1) = U2 (seed + 1) → G seed = G2 seed →
      geom_eff_point z source n seed st U G =
        geom_eff_point z source n seed st U2 G2) := by
  constructor
  · intro i
    rfl
  · intro z source n seed st U U2 G G2 hU hU1 hG
    rw [geom_eff_point, geom_eff_point, hU, hU1, hG]

theorem C2_seed_use_within_call_witness :
    geom_eff_point 2 3 1 0 "uniform" zeroStream zeroStream =
      geom_eff_point 2 3 1 0 "uniform" shiftStream zeroStream :=
  C2_seed_use_within_call.2 2 3 1 0 "uniform" zeroStream shiftStream
    zeroStream zeroStream
    (by funext k; simp [zeroStream, shiftStream])
    (by funext k; simp [zeroStream, shiftStream])
    rfl

/-- C3 counterexample: the claim that every sweep configuration with
`n_points < 2` fails with an InvalidConfiguration error before any
evaluation is false — with `n_points = 0` (a concrete value below 2) the
sweep runs to completion and returns an ordinary (empty) result, not an
error. -/
theorem C3_runs_without_npoints_check :
    runMain "uniform" "circular" 0 5 0 0 0 1 zeroStream zeroStream =
      Except.ok [] := by
  rw [runMain, if_neg (by simp), if_neg (by simp)]
  simp [linspace, sweepLoop]

/-- C3 (amended): the driver performs no validation of `n_points` — for
any recognized type strings a sweep never yields InvalidConfiguration,
whatever `n_points` is (in particular it does not abort for
`n_points < 2`) — and for `n_points ≥ 2` `linspace` builds exactly
`n_points` evenly spaced distances
`out[i] = z_min + (z_max − z_min)/(n_points − 1) · i`, inclusive of both
endpoints. -/
theorem C3_linspace_spec_no_validation :
    (∀ (z_min z_max : ℝ) (n_points : ℕ) (source : ℝ) (power : ℕ)
        (det_fraction : ℝ) (U G : ℤ → ℕ → ℝ),
      runMain "uniform" "circular" z_min z_max n_points source power det_fraction U G ≠
        Except.error Err.invalidConfiguration) ∧
    (∀ (a b : ℝ) (n : ℕ), 2 ≤ n →
      (linspace a b n).length = n ∧
      (∀ i : ℕ, i < n →
        (linspace a b n).getD i 0 = a + (b - a) / ((n : ℝ) - 1) * (i : ℝ)) ∧
      (linspace a b n).getD 0 0 = a ∧
      (linspace a b n).getD (n - 1) 0 = b) := by
  constructor
  · intro z_min z_max n_points source power det_fraction U G
    rw [runMain, if_neg (by simp), if_neg (by simp)]
    rw [sweepLoop_ok _ _
      (sweepStep_circular_eq "uniform" (Or.inl rfl) det_fraction source (10 ^ power) U G)]
    simp
  · intro a b n hn
    have hlen : (linspace a b n).length = n := by
      simp only [linspace, List.length_map, List.length_range]
    have hget : ∀ i : ℕ, i < n →
        (linspace a b n).getD i 0 = a + (b - a) / ((n : ℝ) - 1) * (i : ℝ) := by
      intro i hi
      simp only [linspace]
      exact getD_map_range _ n i hi
    have hne : ((n : ℝ) - 1) ≠ 0 := by
      have h2 : (2 : ℝ) ≤ (n : ℝ) := by exact_mod_cast hn
      intro hc
      have h1 : (n : ℝ) = 1 := sub_eq_zero.mp hc
      rw [h1] at h2
      norm_num at h2
    refine ⟨hlen, hget, ?_, ?_⟩
    · rw [hget 0 (by omega)]
      norm_num
    · rw [hget (n - 1) (by omega)]
      rw [Nat.cast_sub (by omega)]
      rw [Nat.cast_one, div_mul_cancel₀ (b - a) hne]
      ring

theorem C3_linspace_spec_no_validation_witness :
    runMain "uniform" "circular" 0 5 1 0 0 1 zeroStream zeroStream ≠
      Except.error Err.invalidConfiguration ∧
    (linspace 0 5 2).getD 1 0 = 5 := by
  refine ⟨C3_linspace_spec_no_validation.1 0 5 1 0 0 1 zeroStream zeroStream, ?_⟩
  have h := (C3_linspace_spec_no_validation.2 0 5 2 (le_refl 2)).2.2.2
  simpa using h

/-- C4: for an annular detector with inner/outer ratio `det_fraction`,
the driver evaluates the estimator twice at every distance `zi` of the
sweep — once at `(zi, source)` and once at
`(zi · det_fraction, source · det_fraction)`, both calls with the same
seed value `initial_seed` — and reports
`efficiency = efficiency_outer − efficiency_inner` and
`relative_error = sqrt(relative_error_outer² + relative_error_inner²)`. -/
theorem C4_annular_combination (st : String)
    (h : st = "uniform" ∨ st = "gaussian") (z_min z_max : ℝ) (n_points : ℕ)
    (source : ℝ) (power : ℕ) (det_fraction : ℝ) (U G : ℤ → ℕ → ℝ) :
    runMain st "annular" z_min z_max n_points source power det_fraction U G =
      Except.ok ((linspace z_min z_max n_points).map fun zi =>
        (evalEfficiency zi source (10 ^ power) initial_seed st U G -
            evalEfficiency (zi * det_fraction) (source * det_fraction) (10 ^ power)
              initial_seed st U G,
          Real.sqrt
            (rel_err (10 ^ power)
                  (evalEfficiency zi source (10 ^ power) initial_seed st U G) *
                rel_err (10 ^ power)
                  (evalEfficiency zi source (10 ^ power) initial_seed st U G) +
              rel_err (10 ^ power)
                  (evalEfficiency (zi * det_fraction) (source * det_fraction)
                    (10 ^ power) initial_seed st U G) *
                rel_err (10 ^ power)
                  (evalEfficiency (zi * det_fraction) (source * det_fraction)
                    (10 ^ power) initial_seed st U G)))) := by
  have hok : st ≠ "uniform" ∧ st ≠ "gaussian" → False := by
    rcases h with h1 | h1 <;> intro hc <;> [exact hc.1 h1; exact hc.2 h1]
  rw [runMain, if_neg hok, if_neg (by simp)]
  exact sweepLoop_ok _ _
    (sweepStep_annular_eq st h det_fraction source (10 ^ power) U G) _

theorem C4_annular_combination_witness :
    runMain "uniform" "annular" 0 0 1 0 0 1 zeroStream zeroStream =
      Except.ok ((linspace 0 0 1).map fun zi =>
        (evalEfficiency zi 0 (10 ^ 0) initial_seed "uniform" zeroStream zeroStream -
            evalEfficiency (zi * 1) (0 * 1) (10 ^ 0) initial_seed "uniform"
              zeroStream zeroStream,
          Real.sqrt
            (rel_err (10 ^ 0)
                  (evalEfficiency zi 0 (10 ^ 0) initial_seed "uniform" zeroStream
                    zeroStream) *
                rel_err (10 ^ 0)
                  (evalEfficiency zi 0 (10 ^ 0) initial_seed "uniform" zeroStream
                    zeroStream) +
              rel_err (10 ^ 0)
                  (evalEfficiency (zi * 1) (0 * 1) (10 ^ 0) initial_seed "uniform"
                    zeroStream zeroStream) *
                rel_err (10 ^ 0)
                  (evalEfficiency (zi * 1) (0 * 1) (10 ^ 0) initial_seed "uniform"
                    zeroStream zeroStream)))) :=
  C4_annular_combination "uniform" (Or.inl rfl) 0 0 1 0 0 1 zeroStream zeroStream

/-- C5 counterexample: the claim that forcing `N = 0` returns
`efficiency_percent = 0` with a relative error of positive infinity is
false — with `n = 0` samples (and hence `0` hits) line 149 computes
`50.0·0/0`, which is IEEE NaN, and the relative-error expression then
also evaluates to NaN, which is neither the value `0` nor `+∞`. -/
theorem C5_zero_samples_give_nan :
    efficiency_percentF 0 0 = FloatV.nan ∧
    relative_errorF 0 (efficiency_percentF 0 0) = FloatV.nan ∧
    FloatV.nan ≠ FloatV.real 0 ∧ FloatV.nan ≠ FloatV.pinf := by
  have heff : efficiency_percentF 0 0 = FloatV.nan := by
    rw [efficiency_percentF]
    norm_num [fdiv]
  refine ⟨heff, ?_, fun hc => FloatV.noConfusion hc, fun hc => FloatV.noConfusion hc⟩
  rw [heff, relative_errorF]
  rw [show fmul (FloatV.real (2 * ((0 : ℕ) : ℝ))) FloatV.nan = FloatV.nan from rfl]
  rfl

/-- C5 (amended): for a sample count `n ≥ 1`, a configuration that
yields zero hits returns `efficiency_percent = 0` exactly, and the
relative-error expression applied to it yields positive infinity — not
NaN and not a failure: the zero-hit outcome is an ordinary returned
value, as the concrete zero-hit evaluation
`geom_eff_point 0 1 1 0 "gaussian"` (a Gaussian source whose only sampled
point lands at squared radius 9) shows.  Forcing `n = 0`, however, yields
NaN for both outputs, not the claimed `0` and `+∞`. -/
theorem C5_zero_hits_zero_and_pinf (n : ℕ) (hn : 1 ≤ n) :
    efficiency_percentF 0 n = FloatV.real 0 ∧
    relative_errorF n (FloatV.real 0) = FloatV.pinf ∧
    FloatV.pinf ≠ FloatV.nan ∧
    geom_eff_point 0 1 1 0 "gaussian" zeroStream threeStream = Except.ok 0 := by
  have hne : ((n : ℝ)) ≠ 0 := by
    have : (1 : ℝ) ≤ (n : ℝ) := by exact_mod_cast hn
    intro hc
    rw [hc] at this
    norm_num at this
  refine ⟨?_, ?_, fun hc => FloatV.noConfusion hc, eval_gaussian_miss⟩
  · rw [efficiency_percentF]
    rw [fdiv, if_neg hne]
    norm_num
  · rw [relative_errorF]
    rw [show fmul (FloatV.real (2 * (n : ℝ))) (FloatV.real 0) =
      FloatV.real (2 * (n : ℝ) * 0) from rfl]
    rw [show fdiv (FloatV.real (2 * (n : ℝ) * 0)) (FloatV.real 100) =
      FloatV.real (2 * (n : ℝ) * 0 / 100) from by rw [fdiv, if_neg (by norm_num)]]
    rw [show (2 * (n : ℝ) * 0 / 100) = 0 by ring]
    rw [show fsqrt (FloatV.real 0) = FloatV.real 0 from by
      rw [fsqrt, if_neg (by norm_num)]
      rw [Real.sqrt_zero]]
    rw [fdiv, if_pos rfl, if_neg (by norm_num)]

theorem C5_zero_hits_zero_and_pinf_witness :
    efficiency_percentF 0 1 = FloatV.real 0 ∧
    relative_errorF 1 (FloatV.real 0) = FloatV.pinf := by
  have h := C5_zero_hits_zero_and_pinf 1 (le_refl 1)
  exact ⟨h.1, h.2.1⟩

/-- C6: the estimator is deterministic — two calls with identical
arguments (same distance, source profile and size, sample count and
seed, over the same draw streams) return identical efficiency outputs
and identical sweep-step (efficiency, relative-error) pairs, and a
sampler rebuilt from the same seed reproduces the identical draw
sequence in the same order. -/
theorem C6_determinism (z z2 source source2 : ℝ) (n n2 : ℕ)
    (seed seed2 : ℤ) (st st2 : String) (U G : ℤ → ℕ → ℝ)
    (hz : z = z2) (hs : source = source2) (hn : n = n2)
    (hseed : seed = seed2) (hst : st = st2) :
    geom_eff_point z source n seed st U G =
      geom_eff_point z2 source2 n2 seed2 st2 U G ∧
    (∀ (dt : String) (frac : ℝ),
      sweepStep dt st frac source n U G z = sweepStep dt st2 frac source2 n2 U G z2) ∧
    engine_stream seed = engine_stream seed2 := by
  subst hz
  subst hs
  subst hn
  subst hseed
  subst hst
  exact ⟨rfl, fun dt frac => rfl, rfl⟩

theorem C6_determinism_witness :
    geom_eff_point 1 0 10 initial_seed "uniform" zeroStream zeroStream =
      geom_eff_point 1 0 10 initial_seed "uniform" zeroStream zeroStream ∧
    engine_stream initial_seed = engine_stream initial_seed :=
  ⟨(C6_determinism 1 1 0 0 10 10 initial_seed initial_seed "uniform" "uniform"
      zeroStream zeroStream rfl rfl rfl rfl rfl).1,
    (C6_determinism 1 1 0 0 10 10 initial_seed initial_seed "uniform" "uniform"
      zeroStream zeroStream rfl rfl rfl rfl rfl).2.2⟩

/-- C7: `add_vec` (the translate operation) adds the offset batch into
the position batch elementwise when the batches have equal length, and
fails with the SizeMismatch error — halting the evaluation — whenever
the length of the batch and the length of the offset sequences differ
(stated under the `position` invariant that each batch's two coordinate
sequences have one common length). -/
theorem C7_translate_spec (p : position) (x_diff y_diff : List ℝ)
    (_hb : p.x.length = p.y.length) (_ho : x_diff.length = y_diff.length) :
    (p.x.length = x_diff.length →
      add_vec p x_diff y_diff = Except.ok
        { x := List.zipWith (fun a b => a + b) p.x x_diff
          y := List.zipWith (fun a b => a + b) p.y y_diff }) ∧
    (p.x.length ≠ x_diff.length →
      add_vec p x_diff y_diff = Except.error Err.sizeMismatch) := by
  constructor
  · intro h
    rw [add_vec, if_neg (by simp [h])]
  · intro h
    rw [add_vec, if_pos h]

theorem C7_translate_spec_witness :
    add_vec ⟨[1], [2]⟩ [10] [20] = Except.ok ⟨[11], [22]⟩ ∧
    add_vec ⟨[1], [2]⟩ [] [] = Except.error Err.sizeMismatch := by
  constructor
  · have h := (C7_translate_spec ⟨[1], [2]⟩ [10] [20] rfl rfl).1 rfl
    rw [h]
    norm_num
  · exact (C7_translate_spec ⟨[1], [2]⟩ [] [] rfl rfl).2 (by simp)

/-- C8: the point-source approximation computes
`ps(z) = 50 − 50·z/sqrt(1 + z²)` at every entry of its input vector,
satisfies `ps(0) = 50` exactly, and is strictly decreasing on `z ≥ 0`. -/
theorem C8_point_source_spec :
    (∀ zs : List ℝ, point_source zs = zs.map ps) ∧
    ps 0 = 50 ∧
    StrictAntiOn ps (Set.Ici (0 : ℝ)) := by
  refine ⟨fun zs => rfl, by rw [ps]; norm_num, ?_⟩
  intro a ha b hb hab
  have ha0 : (0 : ℝ) ≤ a := ha
  have hb0 : (0 : ℝ) < b := lt_of_le_of_lt ha0 hab
  have hsa : (0 : ℝ) < Real.sqrt (1 + a ^ 2) :=
    Real.sqrt_pos.mpr (by positivity)
  have hsb : (0 : ℝ) < Real.sqrt (1 + b ^ 2) :=
    Real.sqrt_pos.mpr (by positivity)
  have hsa2 : Real.sqrt (1 + a ^ 2) ^ 2 = 1 + a ^ 2 :=
    Real.sq_sqrt (by positivity)
  have hsb2 : Real.sqrt (1 + b ^ 2) ^ 2 = 1 + b ^ 2 :=
    Real.sq_sqrt (by positivity)
  have hsq : (a * Real.sqrt (1 + b ^ 2)) ^ 2 < (b * Real.sqrt (1 + a ^ 2)) ^ 2 := by
    rw [mul_pow, mul_pow, hsa2, hsb2]
    have hab2 : a ^ 2 < b ^ 2 := by nlinarith
    nlinarith
  have hkey : a * Real.sqrt (1 + b ^ 2) < b * Real.sqrt (1 + a ^ 2) := by
    by_contra hc
    push_neg at hc
    have := pow_le_pow_left₀ (by positivity) hc 2
    linarith
  have hdiv : a / Real.sqrt (1 + a ^ 2) < b / Real.sqrt (1 + b ^ 2) :=
    (div_lt_div_iff₀ hsa hsb).mpr hkey
  rw [ps, ps]
  have h50 : 50 * a / Real.sqrt (1 + a ^ 2) < 50 * b / Real.sqrt (1 + b ^ 2) := by
    rw [mul_div_assoc, mul_div_assoc]
    exact (mul_lt_mul_left (by norm_num)).mpr hdiv
  linarith

theorem C8_point_source_spec_witness :
    ps 1 < ps 0 ∧ point_source [0] = [50] := by
  constructor
  · exact C8_point_source_spec.2.2 (by norm_num) (by norm_num) (by norm_num)
  · rw [C8_point_source_spec.1 [0]]
    rw [List.map_singleton, C8_point_source_spec.2.1]

/-- C9: for every radius `r_s ≥ 0`, every bounded draw stream and every
index of the batch, the point produced by `generate_circular_distr` lies
inside the disc of radius `r_s`: its coordinates satisfy
`x² + y² ≤ r_s²`. -/
theorem C9_circular_points_in_disc (r_s : ℝ) (u : ℕ → ℝ) (n i : ℕ)
    (_hr : 0 ≤ r_s) (hu : ∀ k, 0 ≤ u k ∧ u k ≤ 1) (hi : i < n) :
    ((generate_circular_distr n r_s u).x.getD i 0) ^ 2 +
      ((generate_circular_distr n r_s u).y.getD i 0) ^ 2 ≤ r_s ^ 2 := by
  have hx : (generate_circular_distr n r_s u).x.getD i 0 =
      r_s * Real.sqrt (u (2 * i + 1)) * Real.cos (2 * Real.pi * u (2 * i)) := by
    simp only [generate_circular_distr]
    exact getD_map_range _ n i hi
  have hy : (generate_circular_distr n r_s u).y.getD i 0 =
      r_s * Real.sqrt (u (2 * i + 1)) * Real.sin (2 * Real.pi * u (2 * i)) := by
    simp only [generate_circular_distr]
    exact getD_map_range _ n i hi
  rw [hx, hy]
  have hu0 := (hu (2 * i + 1)).1
  have hu1 := (hu (2 * i + 1)).2
  have hsq : Real.sqrt (u (2 * i + 1)) ^ 2 = u (2 * i + 1) := Real.sq_sqrt hu0
  have hcs : Real.cos (2 * Real.pi * u (2 * i)) ^ 2 +
      Real.sin (2 * Real.pi * u (2 * i)) ^ 2 = 1 :=
    Real.cos_sq_add_sin_sq (2 * Real.pi * u (2 * i))
  have hexp : (r_s * Real.sqrt (u (2 * i + 1)) * Real.cos (2 * Real.pi * u (2 * i))) ^ 2 +
      (r_s * Real.sqrt (u (2 * i + 1)) * Real.sin (2 * Real.pi * u (2 * i))) ^ 2 =
      r_s ^ 2 * Real.sqrt (u (2 * i + 1)) ^ 2 *
        (Real.cos (2 * Real.pi * u (2 * i)) ^ 2 +
          Real.sin (2 * Real.pi * u (2 * i)) ^ 2) := by
    ring
  rw [hexp, hcs, mul_one, hsq]
  have hr2 : (0 : ℝ) ≤ r_s ^ 2 := sq_nonneg r_s
  exact mul_le_of_le_one_right hr2 hu1

theorem C9_circular_points_in_disc_witness :
    ((generate_circular_distr 1 1 (fun _ => 0)).x.getD 0 0) ^ 2 +
      ((generate_circular_distr 1 1 (fun _ => 0)).y.getD 0 0) ^ 2 ≤ 1 ^ 2 :=
  C9_circular_points_in_disc 1 (fun _ => 0) 1 0 zero_le_one
    (fun _ => ⟨le_refl 0, zero_le_one⟩) Nat.one_pos

theorem sourceBatch_x_length (source : ℝ) (n : ℕ) (seed : ℤ) (st : String)
    (U G : ℤ → ℕ → ℝ) : (sourceBatch source n seed st U G).x.length = n := by
  by_cases h : st = "uniform" <;>
    simp [sourceBatch, h, generate_circular_distr_x_length,
      generate_gaussian_distr_x_length]

theorem sourceBatch_y_length (source : ℝ) (n : ℕ) (seed : ℤ) (st : String)
    (U G : ℤ → ℕ → ℝ) : (sourceBatch source n seed st U G).y.length = n := by
  by_cases h : st = "uniform" <;>
    simp [sourceBatch, h, generate_circular_distr_y_length,
      generate_gaussian_distr_y_length]

theorem evalEfficiency_bounds (z source : ℝ) (n : ℕ) (seed : ℤ) (st : String)
    (U G : ℤ → ℕ → ℝ) (hn : 1 ≤ n) :
    0 ≤ evalEfficiency z source n seed st U G ∧
      evalEfficiency z source n seed st U G ≤ 50 := by
  rw [evalEfficiency]
  have hnpos : (0 : ℝ) < (n : ℝ) := by exact_mod_cast hn
  set src := sourceBatch source n seed st U G with hsrc
  set em := generate_isotropic n z (U (seed + 1)) with hem
  set sx := List.zipWith (fun a b => a + b) src.x em.x with hsx
  set sy := List.zipWith (fun a b => a + b) src.y em.y with hsy
  set rs := List.zipWith (fun a b => a * a + b * b) sx sy with hrs
  have hlen : rs.length = n := by
    rw [hrs, List.length_zipWith, hsx, hsy, List.length_zipWith, List.length_zipWith,
      hsrc, hem, sourceBatch_x_length, sourceBatch_y_length,
      generate_isotropic_x_length, generate_isotropic_y_length]
    simp
  have hcnt : (rs.countP fun r => decide (r ≤ (1 : ℝ))) ≤ n := by
    rw [← hlen]
    exact List.countP_le_length _
  constructor
  · positivity
  · rw [div_le_iff₀ hnpos]
    have : ((rs.countP fun r => decide (r ≤ (1 : ℝ))) : ℝ) ≤ (n : ℝ) := by
      exact_mod_cast hcnt
    nlinarith

/-- C10 (implicit): for every sample count `n ≥ 1` and any arguments,
the efficiency returned by a single estimator evaluation lies in the
closed interval `[0, 50]`: the hit count is between `0` and `n` and the
result is `50 · hits / n`, so no single evaluation can report an
efficiency above the hemisphere bound of 50 percent or below zero. -/
theorem C10_efficiency_bounded (z source : ℝ) (n : ℕ) (seed : ℤ)
    (st : String) (U G : ℤ → ℕ → ℝ) (e : ℝ) (hn : 1 ≤ n)
    (h : geom_eff_point z source n seed st U G = Except.ok e) :
    0 ≤ e ∧ e ≤ 50 := by
  by_cases h1 : st = "uniform"
  · subst h1
    rw [geom_eff_point_uniform_eq] at h
    have he : evalEfficiency z source n seed "uniform" U G = e :=
      Except.ok.inj h
    rw [← he]
    exact evalEfficiency_bounds z source n seed "uniform" U G hn
  · by_cases h2 : st = "gaussian"
    · subst h2
      rw [geom_eff_point_gaussian_eq] at h
      have he : evalEfficiency z source n seed "gaussian" U G = e :=
        Except.ok.inj h
      rw [← he]
      exact evalEfficiency_bounds z source n seed "gaussian" U G hn
    · rw [geom_eff_point] at h
      simp [h1, h2] at h

theorem C10_efficiency_bounded_witness : (0 : ℝ) ≤ 50 ∧ (50 : ℝ) ≤ 50 :=
  C10_efficiency_bounded 0 0 1 0 "uniform" zeroStream zeroStream 50
    (le_refl 1) (eval_zero_inputs 0)

end GeomEff
